import Mathlib

/-!
Verification development for the `mdserve` repository: a single-file markdown
preview server (`src/server.js`, with its html template, markdown renderer and
file watcher modules) rendered here as a shallow embedding.  Pure functions of
the source become Lean functions; the stateful coordination loop becomes
explicit state passing plus a small-step relation; fallible operations return
`Except`/`Option`.  File-system reads and the external unified/remark pipeline
are parameters, since the source consumes them as opaque collaborators.
-/

namespace Mdserve

/-! ## POSIX path resolution (Node `path.resolve`)

The asset route of `server.js` computes
`assetPath = path.resolve(baseDir, relativePath)` where `baseDir` is absolute.
Node's POSIX `path.resolve` joins the segments right-to-left until an absolute
path is formed, then normalizes: empty and `.` segments are dropped, `..` pops
the previous segment (and is dropped at the root). -/

/-- One normalization step of POSIX path resolution: drop empty and `.`
segments, let `..` pop the last kept segment (no-op at the root), keep any
other segment.  The accumulator holds the kept segments in reverse order. -/
def normStep (acc : List (List Char)) (seg : List Char) : List (List Char) :=
  if seg = [] ∨ seg = ['.'] then acc
  else if seg = ['.', '.'] then acc.tail
  else seg :: acc

/-- Segments of the resolved path for `path.resolve(base, rel)` with `base`
absolute: if `rel` is itself absolute it stands alone, otherwise it is joined
to `base`; then the segment list is normalized. -/
def resolveSegs (base rel : List Char) : List (List Char) :=
  let segs := if rel.head? = some '/' then rel.splitOn '/'
              else base.splitOn '/' ++ rel.splitOn '/'
  (segs.foldl normStep []).reverse

/-- Node `path.resolve(base, rel)` for an absolute POSIX `base`: the normalized
segments rejoined with `/` under a leading root slash. -/
def resolvePath (base rel : String) : String :=
  ⟨'/' :: List.intercalate ['/'] (resolveSegs base.data rel.data)⟩

/-- The source's security check at `server.js:157`:
`assetPath.startsWith(baseDir)` — a raw string-prefix comparison between the
resolved asset path and the base directory. -/
def assetPathAllowed (baseDir assetPath : String) : Bool :=
  baseDir.data.isPrefixOf assetPath.data

/-- Modelled from the spec: a resolved path is *within* the base directory
when it is the base directory itself or lies below it at a path-segment
boundary ( `base/...` ).  The spec's phrase "escapes the base directory" is
the negation of this predicate.  This is the spec-side notion the source's
`startsWith` check is supposed to implement. -/
def withinBase (baseDir assetPath : String) : Bool :=
  assetPath == baseDir || (baseDir ++ "/").data.isPrefixOf assetPath.data

/-! ## MIME types (`server.js:13-39`) -/

/-- The `MIME_TYPES` extension table of `server.js`. -/
def MIME_TYPES : List (String × String) :=
  [(".html", "text/html"), (".css", "text/css"), (".js", "application/javascript"),
   (".json", "application/json"), (".png", "image/png"), (".jpg", "image/jpeg"),
   (".jpeg", "image/jpeg"), (".gif", "image/gif"), (".svg", "image/svg+xml"),
   (".webp", "image/webp"), (".ico", "image/x-icon"), (".pdf", "application/pdf"),
   (".txt", "text/plain"), (".md", "text/markdown")]

/-- Node `path.extname`: the part of the path's last segment from its last
dot on, where a dot in the first position of the segment does not count
(so `.bashrc` has no extension). -/
def extname (p : String) : String :=
  match (p.data.splitOn '/').getLast? with
  | none => ""
  | some [] => ""
  | some (_ :: rest) =>
    if rest.contains '.' then
      ⟨'.' :: (rest.reverse.takeWhile (fun c => c ≠ '.')).reverse⟩
    else ""

/-- JavaScript `toLowerCase()` on one character, for the ASCII range file
extensions live in. -/
def charToLower (c : Char) : Char :=
  if 'A' ≤ c ∧ c ≤ 'Z' then Char.ofNat (c.toNat + 32) else c

/-- JavaScript `toLowerCase()` over a string of ASCII characters. -/
def lowerString (s : String) : String := ⟨s.data.map charToLower⟩

/-- The `getMimeType` function of `server.js`: look the lowercased extension up in
`MIME_TYPES`, defaulting to `application/octet-stream`. -/
def getMimeType (filePath : String) : String :=
  (MIME_TYPES.lookup (lowerString (extname filePath))).getD "application/octet-stream"

/-! ## HTML template (`htmlTemplate.js`)

`generateHtml` builds the full document by template substitution.  The
github-markdown-css text is read from disk by `loadGithubMarkdownCss` (with a
`""` fallback), so it enters the embedding as a parameter.  The two literal
constants `CONTAINER_CSS` and `SSE_CLIENT_SCRIPT` are transcribed below with
`\x7b`/`\x7d` for the braces and `\x27` for the single quotes of the
JavaScript/CSS text. -/

/-- The single-quote character, used by `escapeChar`. -/
def squote : Char := Char.ofNat 39

/-- The `htmlEscapes` replacement of `escapeHtml` (`htmlTemplate.js:411-420`)
for one character: the five HTML-special characters become entities, every
other character stays itself. -/
def escapeChar (c : Char) : List Char :=
  if c = '&' then "&amp;".data
  else if c = '<' then "&lt;".data
  else if c = '>' then "&gt;".data
  else if c = '"' then "&quot;".data
  else if c = squote then "&#39;".data
  else [c]

/-- The `escapeHtml(text)` function: the global regex replacement of the five
HTML-special characters, i.e. the per-character replacement applied across
the string. -/
def escapeHtml (text : String) : String :=
  ⟨(text.data.map escapeChar).flatten⟩

/-- The `CONTAINER_CSS` constant of `htmlTemplate.js` (after `.trim()`). -/
def CONTAINER_CSS : String :=
  ":root \x7b\n  color-scheme: light;\n\x7d\n\n/* Force light mode - override any dark mode styles */\nbody \x7b\n  box-sizing: border-box;\n  min-width: 200px;\n  max-width: 980px;\n  margin: 0 auto;\n  padding: 45px;\n  background-color: #ffffff !important;\n  color: #24292f !important;\n  color-scheme: light;\n\x7d\n\n@media (max-width: 767px) \x7b\n  body \x7b\n    padding: 15px;\n  \x7d\n\x7d\n\n.markdown-body \x7b\n  box-sizing: border-box;\n  color-scheme: light;\n  background-color: #ffffff !important;\n  color: #24292f !important;\n\x7d\n\n/* Override dark mode media query */\n@media (prefers-color-scheme: dark) \x7b\n  body,\n  .markdown-body \x7b\n    background-color: #ffffff !important;\n    color: #24292f !important;\n  \x7d\n\x7d"

/-- The `SSE_CLIENT_SCRIPT` constant of `htmlTemplate.js` (after `.trim()`). -/
def SSE_CLIENT_SCRIPT : String :=
  "(function() \x7b\n  const eventSource = new EventSource(\x27/events\x27);\n\n  eventSource.onmessage = function(event) \x7b\n    if (event.data === \x27reload\x27) \x7b\n      console.log(\x27File changed, reloading...\x27);\n      location.reload();\n    \x7d\n  \x7d;\n\n  eventSource.onerror = function(error) \x7b\n    console.error(\x27SSE connection error:\x27, error);\n    // EventSource automatically attempts to reconnect\n  \x7d;\n\n  // Log when connection is established\n  eventSource.onopen = function() \x7b\n    console.log(\x27Live reload connected\x27);\n  \x7d;\n\x7d)();"

/-- The document text of `generateHtml` before the `<title>` element. -/
def htmlDocOpen : String :=
  "<!DOCTYPE html>\n<html lang=\"en\">\n<head>\n  <meta charset=\"UTF-8\">\n  <meta name=\"viewport\" content=\"width=device-width, initial-scale=1\">\n  <meta name=\"color-scheme\" content=\"light\">\n  "

/-- The document text of `generateHtml` between the `<title>` element and
the rendered content: both inline `<style>` blocks and the opening of the
`markdown-body` article. -/
def htmlHeadSuffix (githubCss : String) : String :=
  "\n\n  <!-- GitHub Markdown CSS (inlined) -->\n  <style>\n" ++ githubCss ++
  "\n  </style>\n\n  <!-- Container and responsive styles -->\n  <style>\n" ++ CONTAINER_CSS ++
  "\n  </style>\n\n  <!-- GitHub-style syntax highlighting theme -->\n  <link rel=\"stylesheet\" href=\"https://cdnjs.cloudflare.com/ajax/libs/highlight.js/11.9.0/styles/github.min.css\" integrity=\"sha512-0aPQyyeZrWj9sCA46UlmWgKOP0mUipLQ6OZXu8l4IcAmD2u31EPEy9VcIMvl7SoAaKe8bLXZhYoMaE/in+gcgA==\" crossorigin=\"anonymous\" referrerpolicy=\"no-referrer\">\n</head>\n<body>\n  <article class=\"markdown-body\">\n"

/-- The document text of `generateHtml` after the rendered content: the live
reload `<script>` when watch is enabled, and the closing tags. -/
def htmlBodySuffix (watch : Bool) : String :=
  "\n  </article>\n\n  " ++
  (if watch then "<!-- Live reload script -->\n  <script>\n" ++ SSE_CLIENT_SCRIPT ++ "\n  </script>" else "") ++
  "\n</body>\n</html>"

/-- The `generateHtml(renderedContent, options)` function of `htmlTemplate.js`:
the complete HTML document, with the filename escaped into the `<title>`
element and the rendered content inside the `markdown-body` article.
`githubCss` is the text returned by `loadGithubMarkdownCss()`. -/
def generateHtml (renderedContent githubCss filename : String) (watch : Bool) : String :=
  htmlDocOpen ++ "<title>" ++ escapeHtml filename ++ "</title>" ++
  htmlHeadSuffix githubCss ++ renderedContent ++ htmlBodySuffix watch

/-! ## Markdown renderer (`renderMarkdown.js`)

The unified/remark/rehype pipeline is an external library, consumed as an
opaque `pipeline : String → String`.  `stat` and `readFile` are file-system
effects, consumed as `Option` results (`none` = the call threw). -/

/-- The `MAX_FILE_SIZE` constant of `renderMarkdown.js`: 10 MiB. -/
def MAX_FILE_SIZE : Nat := 10 * 1024 * 1024

/-- The result of `stat`: the file size in bytes. -/
structure FileStat where
  size : Nat
deriving DecidableEq

/-- The `renderMarkdown(filePath)` function (`renderMarkdown.js:481-508`): `stat` the
file (failure propagates), reject sizes above `MAX_FILE_SIZE`, read the file
(failure propagates), and run the unified pipeline over the content. -/
def renderMarkdown (pipeline : String → String) (statResult : Option FileStat)
    (readResult : Option String) : Except String String :=
  match statResult with
  | none => Except.error "stat failed: file unreadable"
  | some stats =>
    if stats.size > MAX_FILE_SIZE then
      Except.error "File size exceeds maximum allowed size (10MB)"
    else
      match readResult with
      | none => Except.error "readFile failed: file unreadable"
      | some content => Except.ok (pipeline content)

/-! ## Server state (`createServer` closure, `server.js:55-109`)

The mutable variables captured by `createServer`'s closure: the `cachedHtml`
cache (initially `null`), the `sseClients` set, and the configuration fixed
at startup (`watch`, `filename`, `baseDir`).  The JavaScript `Set` of SSE
response objects becomes a duplicate-free insertion-ordered list of
connection identities. -/

structure CoordState where
  cachedHtml : Option String
  sseClients : List Nat
  watch : Bool
  filename : String
  baseDir : String
deriving DecidableEq

/-- The call `sseClients.add(res)` (`server.js:134`): JavaScript `Set.add` inserts the
element only when it is not already a member, at the end in insertion order. -/
def addClient (clients : List Nat) (c : Nat) : List Nat :=
  if c ∈ clients then clients else clients ++ [c]

/-- The call `sseClients.delete(res)` (`server.js:138`): JavaScript `Set.delete`
removes the element when present and is a silent no-op when absent; it never
throws. -/
def removeClient (clients : List Nat) (c : Nat) : List Nat :=
  clients.filter (fun x => x ≠ c)

/-- The closure function `updateRenderedHtml()` (`server.js:75-84`): run the
renderer, and only on
success overwrite `cachedHtml` with the generated full document; a renderer
error is logged and rethrown, leaving `cachedHtml` untouched.  The renderer's
outcome for the current file content enters as `render`; `githubCss` is the
CSS text used by `generateHtml`. -/
def updateRenderedHtml (render : Except String String) (githubCss : String)
    (s : CoordState) : Except String CoordState :=
  match render with
  | Except.error e => Except.error e
  | Except.ok renderedContent =>
    Except.ok { s with
      cachedHtml := some (generateHtml renderedContent githubCss s.filename s.watch) }

/-- The closure state at the top of `createServer`, before the initial
render: `cachedHtml = null`, empty client set. -/
def initState (filename baseDir : String) (watch : Bool) : CoordState :=
  { cachedHtml := none, sseClients := [], watch := watch,
    filename := filename, baseDir := baseDir }

/-- The body of `createServer` up to the point where the HTTP server is created
(`server.js:55-87`): the initial `await updateRenderedHtml()` runs before
`http.createServer`/`listen`, so a failure propagates out of `createServer`
and no server state is ever produced without a rendered snapshot. -/
def createServer (render : Except String String) (githubCss filename baseDir : String)
    (watch : Bool) : Except String CoordState :=
  updateRenderedHtml render githubCss (initState filename baseDir watch)

/-! ## Change-event handler (`server.js:93-106`) -/

/-- The `for (const client of sseClients) client.write(...)` loop of the
change handler (`server.js:100-102`).  `writeOk c = false` models
`client.write` throwing for connection `c`.  The loop body has no per-client
error handling, so a throw aborts the loop; the returned list holds the
clients that were written before the abort, in iteration order. -/
def notifyAll (writeOk : Nat → Bool) : List Nat → List Nat
  | [] => []
  | c :: rest => if writeOk c then c :: notifyAll writeOk rest else []

/-- Result of one run of the change handler: the closure state afterwards and
the clients that received the `data: reload` write. -/
structure ChangeOutcome where
  state : CoordState
  delivered : List Nat
deriving DecidableEq

/-- The `fileWatcher.on('change', ...)` handler (`server.js:93-106`): await
`updateRenderedHtml()`; on success write `data: reload` to each client of
`sseClients` in turn; any throw (renderer error, or a client write throwing
mid-loop) lands in the `catch`, which only logs — in particular no client is
ever removed from `sseClients` by this handler. -/
def onChangeEvent (render : Except String String) (githubCss : String)
    (writeOk : Nat → Bool) (s : CoordState) : ChangeOutcome :=
  match updateRenderedHtml render githubCss s with
  | Except.error _ => { state := s, delivered := [] }
  | Except.ok s2 => { state := s2, delivered := notifyAll writeOk s2.sseClients }

/-! ## HTTP request handler (`requestHandler`, `server.js:114-194`) -/

/-- An HTTP response of `requestHandler`: a 200 with content type and body, a
held-open SSE stream (200, `text/event-stream`), a 403, or a 404. -/
inductive HttpResponse where
  | ok (contentType body : String)
  | sseOpened
  | forbidden (body : String)
  | notFound (body : String)
deriving DecidableEq

/-- The `requestHandler(req, res)` function (`server.js:114-194`), as a function of the
closure state: route `/` answers `cachedHtml` as-is; `/events` (only when
`watch` is on) adds the connection to `sseClients` and holds it open;
`/assets/*` resolves the reference against `baseDir`, answers 403 when the
`startsWith` check fails, 404 when the file is not readable (`fs` returns
`none`), and streams the file with its MIME type otherwise; everything else
is 404.  `connId` is the identity of the requesting connection; the
`decodeURIComponent` call is omitted (the URLs considered here contain no
percent-escapes, where it is the identity). -/
def requestHandler (fs : String → Option String) (connId : Nat) (s : CoordState)
    (url : String) : HttpResponse × CoordState :=
  if url = "/" then
    (HttpResponse.ok "text/html; charset=utf-8" (s.cachedHtml.getD ""), s)
  else if s.watch && (url == "/events") then
    (HttpResponse.sseOpened, { s with sseClients := addClient s.sseClients connId })
  else if "/assets/".data.isPrefixOf url.data then
    let relativePath : String := ⟨url.data.drop 8⟩
    let assetPath := resolvePath s.baseDir relativePath
    if ¬ assetPathAllowed s.baseDir assetPath then
      (HttpResponse.forbidden "403 Forbidden: Access denied", s)
    else
      match fs assetPath with
      | some body => (HttpResponse.ok (getMimeType assetPath) body, s)
      | none => (HttpResponse.notFound "404 Not Found", s)
  else
    (HttpResponse.notFound "404 Not Found", s)

/-- The `req.on('close', ...)` handler registered for an SSE connection
(`server.js:137-139`): delete the connection from the set. -/
def onConnectionClose (s : CoordState) (connId : Nat) : CoordState :=
  { s with sseClients := removeClient s.sseClients connId }

/-- An externally visible server event: an HTTP request arriving on a
connection, or an SSE connection closing. -/
inductive ServerEvent where
  | request (connId : Nat) (url : String)
  | connClose (connId : Nat)

/-- The state transition of one server event. -/
def stepEvent (fs : String → Option String) (s : CoordState) : ServerEvent → CoordState
  | ServerEvent.request connId url => (requestHandler fs connId s url).2
  | ServerEvent.connClose connId => onConnectionClose s connId

/-- A server lifetime: the closure state after a sequence of events. -/
def runEvents (fs : String → Option String) (s : CoordState)
    (events : List ServerEvent) : CoordState :=
  events.foldl (stepEvent fs) s

/-! ## The watch loop as a step relation (`server.js:93-106`)

Each chokidar `change` emission invokes the registered `async` handler anew;
the handler body runs to its first `await` (inside `updateRenderedHtml`,
which immediately suspends in `stat`), so upon every change event a new
render is in flight.  The source keeps no in-progress flag, pending flag, or
queue, so nothing prevents several handler invocations from being suspended
in their render simultaneously.  A task is `rendering` while suspended in
`await updateRenderedHtml()` and `completed` once its handler returned. -/

inductive RenderTask where
  | rendering
  | completed
deriving DecidableEq

/-- The set of in-flight change-handler invocations. -/
structure WatchLoopState where
  tasks : List RenderTask
deriving DecidableEq

/-- Steps of the watch loop: `change s` is chokidar emitting `change`, which
invokes the handler and starts a new render unconditionally; `finish` is one
suspended render resolving, after which that handler runs to completion. -/
inductive WatchStep : WatchLoopState → WatchLoopState → Prop where
  | change (s : WatchLoopState) : WatchStep s ⟨RenderTask.rendering :: s.tasks⟩
  | finish (pre post : List RenderTask) :
      WatchStep ⟨pre ++ RenderTask.rendering :: post⟩ ⟨pre ++ RenderTask.completed :: post⟩

/-- The watch loop before any change event: no handler invocation in flight. -/
def watchLoopInit : WatchLoopState := ⟨[]⟩

/-- How many renders are executing concurrently. -/
def rendersInFlight (s : WatchLoopState) : Nat :=
  s.tasks.countP (fun t => t == RenderTask.rendering)

/-- A concrete server closure state used by several explicit evaluations:
base directory `/docs`, watch off. -/
def docsState : CoordState :=
  { cachedHtml := some "doc", sseClients := [], watch := false,
    filename := "readme.md", baseDir := "/docs" }

/-- A concrete file system for the asset-route evaluations: a secret outside
`/docs` in the sibling directory `/docs-evil`, and an image inside `/docs`. -/
def docsFs : String → Option String := fun p =>
  if p = "/docs-evil/secret.txt" then some "SECRET"
  else if p = "/docs/img/a.png" then some "PNG" else none

/-! ## Helper lemmas -/

/-- Appending strings concatenates the underlying character lists. -/
theorem string_data_append (a b : String) : (a ++ b).data = a.data ++ b.data := rfl

/-- With watch mode off, no branch of `requestHandler` modifies the closure
state: the `/events` branch is guarded by `watch`, and every other branch
returns the state unchanged. -/
theorem requestHandler_state_eq_of_no_watch (fs : String → Option String)
    (connId : Nat) (s : CoordState) (url : String) (hw : s.watch = false) :
    (requestHandler fs connId s url).2 = s := by
  unfold requestHandler
  rw [hw]
  split_ifs with h1 h2 h3
  · rfl
  · simp at h2
  · dsimp only
    split_ifs with h4
    · split <;> rfl
    · rfl
  · rfl

/-- C1: the asset route's path-traversal protection is the raw string-prefix
comparison `assetPath.startsWith(baseDir)` (`server.js:157`), so it does NOT
reject every resolved path that escapes the base directory.  For base `/docs`
the claim's two examples do behave as stated (`../../etc/passwd` is rejected
with 403, `./img/a.png` resolves to `/docs/img/a.png` and is served), but the
reference `../docs-evil/secret.txt` resolves to `/docs-evil/secret.txt`,
which escapes `/docs` yet passes the prefix check and is served — the code
contradicts its own comment "ensure resolved path is within baseDir". -/
theorem asset_traversal_check_bypassed :
    requestHandler docsFs 0 docsState "/assets/../docs-evil/secret.txt" =
      (HttpResponse.ok "text/plain" "SECRET", docsState) ∧
    resolvePath "/docs" "../docs-evil/secret.txt" = "/docs-evil/secret.txt" ∧
    withinBase "/docs" "/docs-evil/secret.txt" = false ∧
    requestHandler docsFs 0 docsState "/assets/../../etc/passwd" =
      (HttpResponse.forbidden "403 Forbidden: Access denied", docsState) ∧
    resolvePath "/docs" "./img/a.png" = "/docs/img/a.png" ∧
    requestHandler docsFs 0 docsState "/assets/./img/a.png" =
      (HttpResponse.ok "image/png" "PNG", docsState) := by
  refine ⟨?_, by decide, by decide, ?_, by decide, ?_⟩ <;> decide

/-- C2 counterexample: from the initial watch-loop state, two chokidar
`change` emissions in a row — the second arriving while the first handler is
still awaiting its render — reach a state with two renders executing
concurrently, so re-renders are not serialized and not coalesced. -/
theorem concurrent_renders_reachable :
    Relation.ReflTransGen WatchStep watchLoopInit
      ⟨[RenderTask.rendering, RenderTask.rendering]⟩ ∧
    rendersInFlight ⟨[RenderTask.rendering, RenderTask.rendering]⟩ = 2 := by
  constructor
  · exact Relation.ReflTransGen.tail
      (Relation.ReflTransGen.tail Relation.ReflTransGen.refl
        (WatchStep.change watchLoopInit))
      (WatchStep.change ⟨[RenderTask.rendering]⟩)
  · decide

/-- C2 amended: the change handler (`server.js:93-106`) keeps no in-progress
flag, pending flag, or queue, so a change event arriving while a re-render is
in flight immediately starts a second render that runs concurrently with the
first. -/
theorem change_during_render_starts_concurrent_render (s : WatchLoopState)
    (h : RenderTask.rendering ∈ s.tasks) :
    ∃ s2, WatchStep s s2 ∧ 2 ≤ rendersInFlight s2 := by
  refine ⟨⟨RenderTask.rendering :: s.tasks⟩, WatchStep.change s, ?_⟩
  have h1 : 0 < s.tasks.countP (fun t => t == RenderTask.rendering) := by
    rw [List.countP_pos_iff]
    exact ⟨RenderTask.rendering, h, by simp⟩
  simp only [rendersInFlight, List.countP_cons, beq_self_eq_true, if_pos]
  omega

/-- Witness for the amended C2 theorem: with exactly one render in flight, a
change event yields two concurrent renders. -/
theorem change_during_render_starts_concurrent_render_witness :
    ∃ s2, WatchStep ⟨[RenderTask.rendering]⟩ s2 ∧ 2 ≤ rendersInFlight s2 :=
  change_during_render_starts_concurrent_render ⟨[RenderTask.rendering]⟩ (by decide)

/-- C3 counterexample: with open viewers `[7, 8]` and the write to viewer 7
throwing, the write error escapes the `for` loop into the handler's `catch`
(`server.js:100-105`): viewer 8 — still open — receives no reload signal,
and viewer 7 is not removed from the set.  Both halves of the claim fail. -/
theorem delivery_failure_not_isolated :
    (onChangeEvent (Except.ok "new") "" (fun c => c != 7)
      { cachedHtml := some "old", sseClients := [7, 8], watch := true,
        filename := "doc.md", baseDir := "/docs" }).delivered = [] ∧
    (onChangeEvent (Except.ok "new") "" (fun c => c != 7)
      { cachedHtml := some "old", sseClients := [7, 8], watch := true,
        filename := "doc.md", baseDir := "/docs" }).state.sseClients = [7, 8] := by
  exact ⟨rfl, rfl⟩

/-- The notify loop delivers to exactly the clients that precede the first
failing write, in iteration order. -/
theorem notifyAll_stops_at_failure (writeOk : Nat → Bool) (post : List Nat) (f : Nat)
    (hf : writeOk f = false) :
    ∀ pre : List Nat, (∀ c ∈ pre, writeOk c = true) →
      notifyAll writeOk (pre ++ f :: post) = pre := by
  intro pre
  induction pre with
  | nil => intro _; simp [notifyAll, hf]
  | cons c rest ih =>
    intro hpre
    have hc : writeOk c = true := hpre c (by simp)
    have hrest := ih (fun x hx => hpre x (by simp [hx]))
    simp [notifyAll, hc, hrest]

/-- C3 amended: a delivery failure during the notify phase is not isolated —
the `for` loop over `sseClients` has no per-client error handling, so the
first failing write aborts it: exactly the viewers before the failing one
(in iteration order) receive the reload signal, the viewers after it receive
nothing, and the change handler never removes any viewer from the set
(removal happens only in the connection-close handler). -/
theorem delivery_failure_aborts_notify (writeOk : Nat → Bool) (pre post : List Nat)
    (f : Nat) (hpre : ∀ c ∈ pre, writeOk c = true) (hf : writeOk f = false) :
    notifyAll writeOk (pre ++ f :: post) = pre ∧
    ∀ render githubCss s,
      (onChangeEvent render githubCss writeOk s).state.sseClients = s.sseClients := by
  constructor
  · exact notifyAll_stops_at_failure writeOk post f hf pre hpre
  · intro render githubCss s
    cases render with
    | error e => rfl
    | ok content => rfl

/-- Witness for the amended C3 theorem: with viewers `[2, 7, 8]` and the
write to viewer 7 failing, only viewer 2 is notified and the set is kept. -/
theorem delivery_failure_aborts_notify_witness :
    notifyAll (fun c => c != 7) ([2] ++ 7 :: [8]) = [2] ∧
    ∀ render githubCss s,
      (onChangeEvent render githubCss (fun c => c != 7) s).state.sseClients =
        s.sseClients :=
  delivery_failure_aborts_notify (fun c => c != 7) [2] [8] 7
    (fun c hc => by simp at hc; subst hc; rfl) rfl

/-- C4: when the re-render triggered by a change event fails, the handler's
`catch` only logs: the cached snapshot is the untouched previous value
(byte-for-byte, the whole closure state is unchanged), no viewer receives a
reload write, and the request handler keeps serving exactly as before. -/
theorem render_failure_retains_snapshot (e githubCss : String)
    (writeOk : Nat → Bool) (s : CoordState) :
    (onChangeEvent (Except.error e) githubCss writeOk s).state = s ∧
    (onChangeEvent (Except.error e) githubCss writeOk s).delivered = [] ∧
    ∀ fs connId url,
      requestHandler fs connId (onChangeEvent (Except.error e) githubCss writeOk s).state url =
        requestHandler fs connId s url :=
  ⟨rfl, rfl, fun _ _ _ => rfl⟩

/-- C5: `createServer` awaits the initial `updateRenderedHtml()` before the
HTTP server is created and starts listening (`server.js:87` precedes
`server.js:197-217`): an initial render failure propagates out of
`createServer` as that very error, and any successfully created server state
carries the snapshot generated from the initial render — the server never
starts without a valid snapshot. -/
theorem initial_render_before_listen (render : Except String String)
    (githubCss filename baseDir : String) (watch : Bool) :
    (∀ e, render = Except.error e →
      createServer render githubCss filename baseDir watch = Except.error e) ∧
    (∀ s, createServer render githubCss filename baseDir watch = Except.ok s →
      ∃ content, render = Except.ok content ∧
        s.cachedHtml = some (generateHtml content githubCss filename watch)) := by
  cases render with
  | error e =>
    refine ⟨fun e2 h => ?_, fun s h => ?_⟩
    · cases h; rfl
    · simp [createServer, updateRenderedHtml] at h
  | ok content =>
    constructor
    · intro e2 h
      cases h
    · intro s h
      refine ⟨content, rfl, ?_⟩
      simp only [createServer, updateRenderedHtml] at h
      cases h
      rfl

/-- Witness for the C5 theorem: a failing initial render propagates its
error out of `createServer`. -/
theorem initial_render_before_listen_witness :
    createServer (Except.error "render failed") "" "doc.md" "/docs" false =
      Except.error "render failed" :=
  (initial_render_before_listen (Except.error "render failed") "" "doc.md" "/docs"
    false).1 "render failed" rfl

/-- C6: a `GET /` request answers `res.end(cachedHtml)` (`server.js:118-122`): the
response body is exactly the cached, already-wrapped document, and no route
of `requestHandler` ever changes the cached snapshot — the handler has no
access to the renderer at all, so serving a request cannot trigger a
render. -/
theorem get_root_serves_cached_snapshot (fs : String → Option String) (connId : Nat)
    (s : CoordState) (html : String) (h : s.cachedHtml = some html) :
    requestHandler fs connId s "/" =
      (HttpResponse.ok "text/html; charset=utf-8" html, s) ∧
    ∀ connId2 url, ((requestHandler fs connId2 s url).2).cachedHtml = s.cachedHtml := by
  constructor
  · simp [requestHandler, h]
  · intro connId2 url
    unfold requestHandler
    split_ifs with h1 h2 h3
    · rfl
    · rfl
    · dsimp only
      split_ifs with h4
      · split <;> rfl
      · rfl
    · rfl

/-- Witness for the C6 theorem: a concrete state whose snapshot is served
verbatim on `/`. -/
theorem get_root_serves_cached_snapshot_witness :
    requestHandler (fun _ => none) 0
      { cachedHtml := some "<!DOCTYPE html>", sseClients := [], watch := false,
        filename := "doc.md", baseDir := "/docs" } "/" =
      (HttpResponse.ok "text/html; charset=utf-8" "<!DOCTYPE html>",
        { cachedHtml := some "<!DOCTYPE html>", sseClients := [], watch := false,
          filename := "doc.md", baseDir := "/docs" }) :=
  (get_root_serves_cached_snapshot (fun _ => none) 0
    { cachedHtml := some "<!DOCTYPE html>", sseClients := [], watch := false,
      filename := "doc.md", baseDir := "/docs" } "<!DOCTYPE html>" rfl).1

/-- C7: `renderMarkdown` (`renderMarkdown.js:481-508`) fails when `stat`
fails, fails when the size exceeds `MAX_FILE_SIZE` (10 MiB), fails when the
read fails, and for a readable file at or under the threshold the size check
passes and the unified pipeline renders the content. -/
theorem render_fails_on_oversize_or_unreadable (pipeline : String → String)
    (stats : FileStat) (readResult : Option String) :
    (∀ r, renderMarkdown pipeline none r =
      Except.error "stat failed: file unreadable") ∧
    (MAX_FILE_SIZE < stats.size →
      renderMarkdown pipeline (some stats) readResult =
        Except.error "File size exceeds maximum allowed size (10MB)") ∧
    (stats.size ≤ MAX_FILE_SIZE →
      renderMarkdown pipeline (some stats) none =
        Except.error "readFile failed: file unreadable") ∧
    (∀ content, stats.size ≤ MAX_FILE_SIZE →
      renderMarkdown pipeline (some stats) (some content) =
        Except.ok (pipeline content)) := by
  refine ⟨fun r => rfl, fun hlt => ?_, fun hle => ?_, fun content hle => ?_⟩
  · simp [renderMarkdown, hlt]
  · simp [renderMarkdown, Nat.not_lt.mpr hle]
  · simp [renderMarkdown, Nat.not_lt.mpr hle]

/-- Witness for the C7 theorem: one byte over 10 MiB is rejected, exactly
10 MiB passes the size check and renders, and a failed read is an error. -/
theorem render_fails_on_oversize_or_unreadable_witness :
    renderMarkdown (fun c => c) (some ⟨10485761⟩) (some "# hi") =
      Except.error "File size exceeds maximum allowed size (10MB)" ∧
    renderMarkdown (fun c => c) (some ⟨10485760⟩) (some "# hi") =
      Except.ok "# hi" ∧
    renderMarkdown (fun c => c) (some ⟨10485760⟩) none =
      Except.error "readFile failed: file unreadable" :=
  ⟨(render_fails_on_oversize_or_unreadable (fun c => c) ⟨10485761⟩ (some "# hi")).2.1
      (by decide),
   (render_fails_on_oversize_or_unreadable (fun c => c) ⟨10485760⟩ (some "# hi")).2.2.2
      "# hi" (by decide),
   (render_fails_on_oversize_or_unreadable (fun c => c) ⟨10485760⟩ none).2.2.1
      (by decide)⟩

/-- C8: removal of a viewer connection is JavaScript `Set.delete`
(`server.js:138`): deleting a handle that was already removed is a no-op and
never an error, so the close handler's removal is idempotent — a second
removal attempt for the same handle leaves the set exactly as after the
first. -/
theorem unsubscribe_idempotent (s : CoordState) (c : Nat) :
    onConnectionClose (onConnectionClose s c) c = onConnectionClose s c ∧
    ∀ clients, removeClient (removeClient clients c) c = removeClient clients c := by
  constructor
  · simp [onConnectionClose, removeClient, List.filter_filter]
  · intro clients
    simp [removeClient, List.filter_filter]

/-- Every character of an `escapeChar` expansion is markup-safe: never a raw
`<`, `>`, `"` or `'`. -/
theorem escapeChar_no_markup (ch c : Char) (h : c ∈ escapeChar ch) :
    c ≠ '<' ∧ c ≠ '>' ∧ c ≠ '"' ∧ c ≠ squote := by
  unfold escapeChar at h
  split_ifs at h with h1 h2 h3 h4 h5
  · refine ⟨?_, ?_, ?_, ?_⟩ <;> (rintro rfl; exact absurd h (by decide))
  · refine ⟨?_, ?_, ?_, ?_⟩ <;> (rintro rfl; exact absurd h (by decide))
  · refine ⟨?_, ?_, ?_, ?_⟩ <;> (rintro rfl; exact absurd h (by decide))
  · refine ⟨?_, ?_, ?_, ?_⟩ <;> (rintro rfl; exact absurd h (by decide))
  · refine ⟨?_, ?_, ?_, ?_⟩ <;> (rintro rfl; exact absurd h (by decide))
  · simp only [List.mem_singleton] at h
    subst h
    exact ⟨h2, h3, h4, h5⟩

/-- C9: the generated document's `<title>` element contains exactly
`escapeHtml(filename)` — the filename with `&` `<` `>` `"` `'` replaced by
their HTML entities — and the escaped text contains no raw markup
character, so no filename can inject markup into the page head. -/
theorem title_escapes_filename (renderedContent githubCss filename : String)
    (watch : Bool) :
    (∃ pre post : List Char,
      (generateHtml renderedContent githubCss filename watch).data =
        pre ++ "<title>".data ++ (escapeHtml filename).data ++ "</title>".data ++ post) ∧
    ∀ c ∈ (escapeHtml filename).data, c ≠ '<' ∧ c ≠ '>' ∧ c ≠ '"' ∧ c ≠ squote := by
  constructor
  · refine ⟨htmlDocOpen.data,
      (htmlHeadSuffix githubCss).data ++ renderedContent.data ++
        (htmlBodySuffix watch).data, ?_⟩
    simp [generateHtml, string_data_append, List.append_assoc]
  · intro c hc
    simp only [escapeHtml] at hc
    rw [List.mem_flatten] at hc
    obtain ⟨seg, hseg, hcseg⟩ := hc
    rw [List.mem_map] at hseg
    obtain ⟨ch, _, rfl⟩ := hseg
    exact escapeChar_no_markup ch c hcseg

/-- Witness for the C9 theorem: instantiated at a concrete filename whose
escaped form contains the character `a`, which is confirmed markup-safe. -/
theorem title_escapes_filename_witness :
    'a' ≠ '<' ∧ 'a' ≠ '>' ∧ 'a' ≠ '"' ∧ 'a' ≠ squote :=
  (title_escapes_filename "<h1>hi</h1>" "" "a<b.md" true).2 'a' (by decide)

/-- With watch mode off, no sequence of requests and connection closes ever
puts a viewer into the (initially empty) connection set. -/
theorem runEvents_clients_empty (fs : String → Option String) :
    ∀ (events : List ServerEvent) (s : CoordState), s.watch = false →
      s.sseClients = [] → (runEvents fs s events).sseClients = [] := by
  intro events
  induction events with
  | nil => intro s hw hc; exact hc
  | cons ev rest ih =>
    intro s hw hc
    cases ev with
    | request connId url =>
      have hstep := requestHandler_state_eq_of_no_watch fs connId s url hw
      simp only [runEvents, List.foldl_cons, stepEvent, hstep]
      exact ih s hw hc
    | connClose connId =>
      simp only [runEvents, List.foldl_cons, stepEvent]
      refine ih (onConnectionClose s connId) hw ?_
      simp [onConnectionClose, removeClient, hc]

/-- C10: with watch mode disabled, `GET /events` misses the SSE route guard
`watch && url === '/events'` (`server.js:125`) and — not matching the
asset-prefix route either — falls through to the 404 branch with the state
untouched; since the SSE route is the only place that adds to `sseClients`,
the viewer set stays empty over the whole server lifetime. -/
theorem no_viewers_without_watch (fs : String → Option String) (s : CoordState)
    (hw : s.watch = false) :
    (∀ connId, requestHandler fs connId s "/events" =
      (HttpResponse.notFound "404 Not Found", s)) ∧
    (s.sseClients = [] → ∀ events, (runEvents fs s events).sseClients = []) := by
  constructor
  · intro connId
    unfold requestHandler
    rw [hw]
    rfl
  · intro hc events
    exact runEvents_clients_empty fs events s hw hc

/-- Witness for the C10 theorem: on the concrete `/docs` server with watch
off, `/events` is a 404 and a lifetime of subscribe/close/get events leaves
the viewer set empty. -/
theorem no_viewers_without_watch_witness :
    requestHandler docsFs 1 docsState "/events" =
      (HttpResponse.notFound "404 Not Found", docsState) ∧
    (runEvents docsFs docsState
      [ServerEvent.request 1 "/events", ServerEvent.connClose 1,
       ServerEvent.request 2 "/"]).sseClients = [] :=
  ⟨(no_viewers_without_watch docsFs docsState rfl).1 1,
   (no_viewers_without_watch docsFs docsState rfl).2 rfl
     [ServerEvent.request 1 "/events", ServerEvent.connClose 1,
      ServerEvent.request 2 "/"]⟩

end Mdserve
